import Mathlib

/-!
Verification of the car_logger maintenance tracker (src/main.py).

The program keeps an append-only SQLite table `logs` of service records and,
given a current mileage, scans a fixed catalog of 12 planned maintenance
tasks (`PLANNED_WORK_WITH_PERIOD`), querying per task the highest stored
mileage among records whose description equals the description of the task
(GET_LAST_SERVICE_SQL: `SELECT mileage FROM logs WHERE description = ?
ORDER BY mileage DESC LIMIT 1`), and reports the tasks for which
`current_mileage >= last_mileage + period - int(period * 0.1)`.

The embedding models:
  * a stored table row (`Row`) and a user-submitted record (`LogRecord`,
    dates modelled by their ISO-8601 strings, since `create_record` stores
    `record.service_date.isoformat()` and the evaluator never reads dates);
  * the two SQL statements the evaluator and the record-creation path
    execute, as state transformers on the list of rows in insertion order
    (`execSelectLast`, `execInsert`; AUTOINCREMENT ids on an append-only
    table are 1,2,3,..., so the next id is `rows.length + 1`);
  * `check_necessary_service` both as a state-threading loop over the
    catalog (`checkTasksS`) and as a loop over an abstract fallible query
    (`checkTasksE`), the latter to capture the propagation of
    `sqlite3.OperationalError` out of the scan and its handling in
    `display_service_status`;
  * the Python expression `int(period * 0.1)` exactly: the IEEE-754 double nearest to
    0.1 is 3602879701896397 / 2^55; the product with the integer `period`
    is formed exactly, rounded to the nearest double (ties to even), and
    truncated toward zero (`intTimesPoint1`).
-/

namespace CarLogger

/-- One stored row of the `logs` table: surrogate id, mileage, ISO date
string, service type and description (columns of CREATE_TABLE_SQL). -/
structure Row where
  id : Nat
  mileage : Int
  date : String
  type_ : String
  description : String
deriving DecidableEq

/-- The `LogRecord` dataclass of the source: a user-submitted service
record. `service_date` is modelled by its ISO-8601 string, which is what
`create_record` stores. -/
structure LogRecord where
  mileage : Int
  service_date : String
  type_ : String
  service_description : String
deriving DecidableEq

/-- The catalog `PLANNED_WORK_WITH_PERIOD` of the source: task id,
description, recurrence interval in km. -/
def PLANNED_WORK_WITH_PERIOD : List (Nat × String × Nat) :=
  [ (0, "Замена масла в двигателе", 15000),
    (1, "Замена масляного фильтра", 15000),
    (2, "Замена тормозных дисков", 100000),
    (3, "Замена топливного фильтра", 80000),
    (4, "Замена воздушного фильтра для двигателя", 40000),
    (5, "Замена воздушного фильтра для салона", 20000),
    (6, "Замена свечей зажигания", 100000),
    (7, "Замена тормозной жидкости", 40000),
    (8, "Замена масла в раздаточной коробке", 100000),
    (9, "Замена масла в механизме заднего дифференциала", 100000),
    (10, "Замена охлаждающей жидкости двигателя", 80000),
    (11, "Замена масла в АКПП", 100000) ]

/-- Number of bits of `n` (fuelled so that it reduces in the kernel);
`bitLenAux fuel n` is the bit length of `n` as long as `n < 2 ^ fuel`. -/
def bitLenAux : Nat → Nat → Nat
  | 0, _ => 0
  | fuel + 1, n => if n = 0 then 0 else bitLenAux fuel (n / 2) + 1

/-- Bit length of a natural number below `2 ^ 80` (large enough for every
product `period * 3602879701896397` that occurs). -/
def bitLen (n : Nat) : Nat := bitLenAux 80 n

/-- The significand of the IEEE-754 double closest to 0.1:
that double is `3602879701896397 / 2 ^ 55`. -/
def mant01 : Nat := 3602879701896397

/-- Python `int(n * 0.1)` for a non-negative integer `n`, modelled
exactly: `n * 0.1` multiplies the exact integer (converted to double; all
catalog periods are below `2 ^ 53`, hence exact) by the double nearest to
0.1, rounds the exact product to the nearest double with ties to even, and
`int` truncates the non-negative result toward zero. The exact product is
`n * mant01 / 2 ^ 55`; rounding keeps the top 53 bits of the numerator,
rounding half-to-even on the rest. -/
def intTimesPoint1 (n : Nat) : Nat :=
  let P := n * mant01
  let b := bitLen P
  if b ≤ 53 then
    P / 2 ^ 55
  else
    let s := b - 53
    let q := P / 2 ^ s
    let r := P % 2 ^ s
    let half := 2 ^ (s - 1)
    let q2 := if half < r || (r == half && q % 2 == 1) then q + 1 else q
    q2 * 2 ^ s / 2 ^ 55

/-- The `admission` (tolerance) computed by `check_necessary_service`:
`admission = int(period * 0.1)  # 10% допуск`. -/
def admission (period : Nat) : Nat := intTimesPoint1 period

/-- GET_LAST_SERVICE_SQL as a pure query on the table contents:
`SELECT mileage FROM logs WHERE description = ? ORDER BY mileage DESC
LIMIT 1` returns the greatest mileage among rows whose description equals
the parameter, or no row. -/
def get_last_service : List Row → String → Option Int
  | [], _ => none
  | r :: rest, desc =>
    let tail := get_last_service rest desc
    if r.description = desc then
      match tail with
      | none => some r.mileage
      | some m => some (max r.mileage m)
    else tail

/-- `last_mileage = result[0] if result else 0`. -/
def last_mileage (db : List Row) (desc : String) : Int :=
  (get_last_service db desc).getD 0

/-- Executing GET_LAST_SERVICE_SQL on a connection: a SELECT leaves the
table unchanged and produces the query result. -/
def execSelectLast (db : List Row) (desc : String) : List Row × Option Int :=
  (db, get_last_service db desc)

/-- Executing CREATE_RECORD_SQL on a connection: INSERT appends a row; on
this append-only table the AUTOINCREMENT id is `db.length + 1`, which is
also `cursor.lastrowid`. -/
def execInsert (db : List Row) (mileage : Int) (date ty descr : String) :
    List Row × Nat :=
  (db ++ [⟨db.length + 1, mileage, date, ty, descr⟩], db.length + 1)

/-- The loop body of `check_necessary_service`, threading the table state
through each query: for every catalog entry in order, query the last
service mileage, default it to 0, and collect the task when
`current_mileage >= next_service - admission`. -/
def checkTasksS (db : List Row) (current_mileage : Int) :
    List (Nat × String × Nat) → List Row × List (String × Int × Int)
  | [] => (db, [])
  | (_, work_desc, period) :: rest =>
    let step := execSelectLast db work_desc
    let lastM := step.2.getD 0
    let next_service := lastM + (period : Int)
    let tail := checkTasksS step.1 current_mileage rest
    (tail.1,
      (if next_service - (admission period : Int) ≤ current_mileage then
        [(work_desc, lastM, next_service)]
      else []) ++ tail.2)

/-- `CarLogger.check_necessary_service` with its effect on the store made
explicit: final table state paired with the returned mapping (modelled as
the association list in catalog order; the Python dict preserves insertion
order and the catalog descriptions are distinct). -/
def check_necessary_serviceS (db : List Row) (current_mileage : Int) :
    List Row × List (String × Int × Int) :=
  checkTasksS db current_mileage PLANNED_WORK_WITH_PERIOD

/-- The mapping returned by `CarLogger.check_necessary_service`. -/
def check_necessary_service (db : List Row) (current_mileage : Int) :
    List (String × Int × Int) :=
  (check_necessary_serviceS db current_mileage).2

/-- `CarLogger.create_record`: executes CREATE_RECORD_SQL with the
fields of the record (the date via `isoformat`) and returns
`cursor.lastrowid`. -/
def create_record (db : List Row) (record : LogRecord) : List Row × Nat :=
  execInsert db record.mileage record.service_date record.type_
    record.service_description

/-- The pure catalog loop (the state-threading loop with the unchanged
table projected away); proved equal to `checkTasksS` below. -/
def checkTasks (db : List Row) (current_mileage : Int) :
    List (Nat × String × Nat) → List (String × Int × Int)
  | [] => []
  | (_, work_desc, period) :: rest =>
    let lastM := last_mileage db work_desc
    let next_service := lastM + (period : Int)
    (if next_service - (admission period : Int) ≤ current_mileage then
      [(work_desc, lastM, next_service)]
    else []) ++ checkTasks db current_mileage rest

/-- The catalog loop over an abstract fallible query (each
`cursor.execute(GET_LAST_SERVICE_SQL, ...)` may raise
`sqlite3.OperationalError`, modelled as `Except.error`); the first failing
query aborts the whole scan and the locally collected entries are
discarded, exactly as a Python exception unwinds the loop. -/
def checkTasksE (q : String → Except String (Option Int))
    (current_mileage : Int) :
    List (Nat × String × Nat) → Except String (List (String × Int × Int))
  | [] => .ok []
  | (_, work_desc, period) :: rest =>
    match q work_desc with
    | .error e => .error e
    | .ok res =>
      let lastM := res.getD 0
      let next_service := lastM + (period : Int)
      match checkTasksE q current_mileage rest with
      | .error e => .error e
      | .ok tail =>
        .ok ((if next_service - (admission period : Int) ≤ current_mileage
            then [(work_desc, lastM, next_service)]
            else []) ++ tail)

/-- `check_necessary_service` against a store whose queries may fail. -/
def check_necessary_serviceE (q : String → Except String (Option Int))
    (current_mileage : Int) : Except String (List (String × Int × Int)) :=
  checkTasksE q current_mileage PLANNED_WORK_WITH_PERIOD

/-- Status cell written by `display_service_status` for a due row. -/
def STATUS_DUE : String := "[warning]ТРЕБУЕТСЯ![/warning]"

/-- Status cell written by `display_service_status` for an upcoming row. -/
def STATUS_SOON : String := "[info]Скоро потребуется[/info]"

/-- Per-row status of `display_service_status`:
`"ТРЕБУЕТСЯ!" if current_mileage >= next_service else "Скоро потребуется"`. -/
def rowStatus (current_mileage next_service : Int) : String :=
  if next_service ≤ current_mileage then STATUS_DUE else STATUS_SOON

/-- What `display_service_status` shows the user: the error panel of its
`except sqlite3.OperationalError` handler, the all-fine panel, or the
service table with one status per included entry. -/
inductive DisplayOutcome where
  | dbError (msg : String)
  | allFine
  | serviceTable (rows : List (String × Int × Int × String))
deriving DecidableEq

/-- `CarLogger.display_service_status`: runs the evaluation, reports a
database failure via the error panel, the empty result via the all-fine
panel, and otherwise renders one row per entry with its status. -/
def display_service_status (q : String → Except String (Option Int))
    (current_mileage : Int) : DisplayOutcome :=
  match check_necessary_serviceE q current_mileage with
  | .error e => .dbError e
  | .ok l =>
    if l.isEmpty then .allFine
    else
      .serviceTable (l.map fun ent =>
        (ent.1, ent.2.1, ent.2.2, rowStatus current_mileage ent.2.2))

/-- A stored row whose category is unscheduled repair but whose free-text
description coincides with the catalog description of task 0. -/
def repairRow : Row :=
  ⟨1, 500000, "2024-01-01", "внеплановый ремонт", "Замена масла в двигателе"⟩

/-- A scheduled-maintenance record for task 0 at 100000 km. -/
def recordA : LogRecord :=
  ⟨100000, "2024-01-01", "плановое ТО", "Замена масла в двигателе"⟩

/-- A scheduled-maintenance record for task 0 at 50000 km, entered after
`recordA` (e.g. a belatedly logged older service). -/
def recordB : LogRecord :=
  ⟨50000, "2024-06-01", "плановое ТО", "Замена масла в двигателе"⟩

/-- A record that is invalid per the specification: negative mileage and
empty description. -/
def invalidRecord : LogRecord :=
  ⟨-1, "2024-01-01", "внеплановый ремонт", ""⟩

/-- An unscheduled-repair row whose description matches no catalog task. -/
def lampRow : Row :=
  ⟨1, 5000, "2024-01-01", "внеплановый ремонт", "замена лампочки"⟩

/-- A store whose every query fails (e.g. the database file is locked). -/
def qFail : String → Except String (Option Int) :=
  fun _ => .error "database is locked"


/-- Membership in a conditional singleton list. -/
theorem mem_ite_singleton {α : Type} {c : Prop} [Decidable c] {x y : α} :
    (x ∈ if c then [y] else []) ↔ c ∧ x = y := by
  by_cases h : c <;> simp [h]

/-- The state-threading catalog loop leaves the table unchanged and
computes the pure loop: every command it executes is the SELECT of
GET_LAST_SERVICE_SQL. -/
theorem checkTasksS_eq_pure (db : List Row) (m : Int)
    (cat : List (Nat × String × Nat)) :
    checkTasksS db m cat = (db, checkTasks db m cat) := by
  induction cat with
  | nil => rfl
  | cons t rest ih =>
    obtain ⟨i, d, p⟩ := t
    simp [checkTasksS, checkTasks, execSelectLast, last_mileage, ih]

/-- Characterisation of the entries produced by the catalog loop. -/
theorem mem_checkTasks {db : List Row} {m : Int}
    {cat : List (Nat × String × Nat)} {d : String} {l n : Int} :
    (d, l, n) ∈ checkTasks db m cat ↔
      ∃ i p, (i, d, p) ∈ cat ∧ l = last_mileage db d ∧ n = l + (p : Int) ∧
        n - (admission p : Int) ≤ m := by
  induction cat with
  | nil => simp [checkTasks]
  | cons t rest ih =>
    obtain ⟨i, td, tp⟩ := t
    simp only [checkTasks, List.mem_append, mem_ite_singleton, ih,
      List.mem_cons, Prod.mk.injEq]
    constructor
    · rintro (⟨hc, hd, hl, hn⟩ | ⟨i2, p2, hmem, hl, hn, hle⟩)
      · subst hd hl hn
        exact ⟨i, tp, Or.inl ⟨rfl, rfl, rfl⟩, rfl, rfl, hc⟩
      · exact ⟨i2, p2, Or.inr hmem, hl, hn, hle⟩
    · rintro ⟨i2, p2, (⟨hi, hd, hp⟩ | hmem), hl, hn, hle⟩
      · subst hd hp hl hn
        exact Or.inl ⟨hle, rfl, rfl, rfl⟩
      · exact Or.inr ⟨i2, p2, hmem, hl, hn, hle⟩

/-- The returned mapping equals the pure catalog loop. -/
theorem check_necessary_service_eq_pure (db : List Row) (m : Int) :
    check_necessary_service db m = checkTasks db m PLANNED_WORK_WITH_PERIOD := by
  simp [check_necessary_service, check_necessary_serviceS, checkTasksS_eq_pure]

/-- On every catalog entry, the float-based admission agrees with exact
integer truncation of one tenth of the period. -/
theorem admission_catalog :
    ∀ t ∈ PLANNED_WORK_WITH_PERIOD, admission t.2.2 = t.2.2 / 10 := by decide

/-- The catalog assigns at most one period per description. -/
theorem catalog_desc_functional :
    ∀ t1 ∈ PLANNED_WORK_WITH_PERIOD, ∀ t2 ∈ PLANNED_WORK_WITH_PERIOD,
      t1.2.1 = t2.2.1 → t1.2.2 = t2.2.2 := by decide

/-- Appending a row whose description matches, with mileage at least every
already stored matching mileage, makes that mileage the query result. -/
theorem get_last_service_append_le (db : List Row) (row : Row)
    (h : ∀ x ∈ db, x.description = row.description →
      x.mileage ≤ row.mileage) :
    get_last_service (db ++ [row]) row.description = some row.mileage := by
  induction db with
  | nil => simp [get_last_service]
  | cons x rest ih =>
    have hrest := ih fun y hy => h y (List.mem_cons_of_mem _ hy)
    by_cases hx : x.description = row.description
    · have hle := h x (List.mem_cons_self _ _) hx
      simp [get_last_service, hx, hrest, max_eq_right hle]
    · simp [get_last_service, hx, hrest]

/-- Appending a row with a different description does not change the
query result. -/
theorem get_last_service_append_ne (db : List Row) (row : Row)
    (desc : String) (h : row.description ≠ desc) :
    get_last_service (db ++ [row]) desc = get_last_service db desc := by
  induction db with
  | nil => simp [get_last_service, h]
  | cons x rest ih => simp [get_last_service, ih]

/-- Appending a row whose description matches no catalog entry does not
change the pure catalog loop. -/
theorem checkTasks_append_ne (db : List Row) (row : Row) (m : Int)
    (cat : List (Nat × String × Nat))
    (h : ∀ t ∈ cat, t.2.1 ≠ row.description) :
    checkTasks (db ++ [row]) m cat = checkTasks db m cat := by
  induction cat with
  | nil => rfl
  | cons t rest ih =>
    obtain ⟨i, d, p⟩ := t
    have hd : row.description ≠ d :=
      fun he => h (i, d, p) (List.mem_cons_self _ _) he.symm
    have hlm : last_mileage (db ++ [row]) d = last_mileage db d := by
      simp [last_mileage, get_last_service_append_ne db row d hd]
    simp only [checkTasks, hlm,
      ih fun t ht => h t (List.mem_cons_of_mem _ ht)]


/-- The scan errors exactly when some catalog query errors. -/
theorem checkTasksE_error_iff (q : String → Except String (Option Int))
    (m : Int) (cat : List (Nat × String × Nat)) :
    (∃ e, checkTasksE q m cat = .error e) ↔
      ∃ t ∈ cat, ∃ e, q t.2.1 = .error e := by
  induction cat with
  | nil => simp [checkTasksE]
  | cons t rest ih =>
    obtain ⟨i, d, p⟩ := t
    constructor
    · rintro ⟨e, he⟩
      rw [checkTasksE] at he
      cases hq : q d with
      | error e2 => exact ⟨(i, d, p), List.mem_cons_self _ _, e2, hq⟩
      | ok res =>
        rw [hq] at he
        cases hr : checkTasksE q m rest with
        | error e3 =>
          obtain ⟨t2, ht2, e4, hq4⟩ := ih.mp ⟨e3, hr⟩
          exact ⟨t2, List.mem_cons_of_mem _ ht2, e4, hq4⟩
        | ok tail =>
          rw [hr] at he
          simp at he
    · rintro ⟨t2, ht2, e, hq⟩
      rcases List.mem_cons.mp ht2 with heq | hmem
      · refine ⟨e, ?_⟩
        rw [checkTasksE]
        subst heq
        rw [hq]
      · obtain ⟨e2, he2⟩ := ih.mpr ⟨t2, hmem, e, hq⟩
        cases hq2 : q d with
        | error e3 =>
          refine ⟨e3, ?_⟩
          rw [checkTasksE, hq2]
        | ok res =>
          refine ⟨e2, ?_⟩
          rw [checkTasksE, hq2, he2]

/-- A successful scan implies every catalog query succeeded: the returned
mapping always covers the full catalog scan. -/
theorem checkTasksE_ok_full (q : String → Except String (Option Int))
    (m : Int) (cat : List (Nat × String × Nat)) (l : List (String × Int × Int))
    (h : checkTasksE q m cat = .ok l) :
    ∀ t ∈ cat, ∃ v, q t.2.1 = .ok v := by
  induction cat generalizing l with
  | nil => simp
  | cons t rest ih =>
    obtain ⟨i, d, p⟩ := t
    intro t2 ht2
    rw [checkTasksE] at h
    cases hq : q d with
    | error e =>
      rw [hq] at h
      simp at h
    | ok res =>
      rw [hq] at h
      cases hr : checkTasksE q m rest with
      | error e =>
        rw [hr] at h
        simp at h
      | ok tail =>
        rcases List.mem_cons.mp ht2 with heq | hmem
        · subst heq
          exact ⟨res, hq⟩
        · exact ih tail hr t2 hmem


/-- Claim C1: for every catalog task and every non-negative current
mileage `m`, the task is included in the mapping returned by
`check_necessary_service` iff `m >= L + interval - floor(interval * 0.1)`,
where `L` is the greatest stored mileage among records whose description
equals the description of the task (0 when none exists); the included
entry carries the value `(L, L + interval)`. -/
theorem check_necessary_service_inclusion_iff (i : Nat) (d : String)
    (p : Nat) (hmem : (i, d, p) ∈ PLANNED_WORK_WITH_PERIOD)
    (db : List Row) (m : Int) (_hm : 0 ≤ m) :
    ((d, last_mileage db d, last_mileage db d + (p : Int)) ∈
        check_necessary_service db m ↔
      last_mileage db d + (p : Int) - ((p / 10 : Nat) : Int) ≤ m) ∧
    ∀ l n, (d, l, n) ∈ check_necessary_service db m →
      l = last_mileage db d ∧ n = last_mileage db d + (p : Int) := by
  have hadm : admission p = p / 10 := admission_catalog (i, d, p) hmem
  constructor
  · rw [check_necessary_service_eq_pure, mem_checkTasks]
    constructor
    · rintro ⟨i2, p2, hmem2, hl, hn, hle⟩
      have hp : p2 = p :=
        catalog_desc_functional (i2, d, p2) hmem2 (i, d, p) hmem rfl
      subst hp
      rwa [hadm] at hle
    · intro hth
      exact ⟨i, p, hmem, rfl, rfl, by rwa [hadm]⟩
  · intro l n hmemln
    rw [check_necessary_service_eq_pure, mem_checkTasks] at hmemln
    obtain ⟨i2, p2, hmem2, hl, hn, hle⟩ := hmemln
    have hp : p2 = p :=
      catalog_desc_functional (i2, d, p2) hmem2 (i, d, p) hmem rfl
    subst hp
    exact ⟨hl, by rw [hn, hl]⟩

/-- Witness for C1: task 0 (oil change, interval 15000) on the empty
store at mileage 13500. -/
theorem check_necessary_service_inclusion_iff_witness :
    ((("Замена масла в двигателе",
        last_mileage [] "Замена масла в двигателе",
        last_mileage [] "Замена масла в двигателе" + (15000 : Int)) ∈
        check_necessary_service [] 13500 ↔
      last_mileage [] "Замена масла в двигателе" + (15000 : Int) -
        ((15000 / 10 : Nat) : Int) ≤ 13500) ∧
    ∀ l n, ("Замена масла в двигателе", l, n) ∈
        check_necessary_service [] 13500 →
      l = last_mileage [] "Замена масла в двигателе" ∧
      n = last_mileage [] "Замена масла в двигателе" + (15000 : Int)) :=
  check_necessary_service_inclusion_iff 0 "Замена масла в двигателе" 15000
    (by decide) [] 13500 (by decide)

/-- Counterexample to claim C2 as stated: appending a record whose
mileage is below an already stored record with the same description and
then running the last-service query returns the stored maximum, not the
just-appended mileage. -/
theorem create_then_find_latest_not_appended_mileage :
    get_last_service (create_record (create_record [] recordA).1 recordB).1
        recordB.service_description ≠ some recordB.mileage ∧
    get_last_service (create_record (create_record [] recordA).1 recordB).1
        recordB.service_description = some (100000 : Int) := by decide

/-- Claim C2 (amended): appending a record and immediately querying the
last service with its description returns the just-appended mileage,
provided that mileage is at least every already stored mileage under the
same description (in particular on a store with no matching record). -/
theorem create_then_find_latest_if_max (db : List Row) (r : LogRecord)
    (h : ∀ x ∈ db, x.description = r.service_description →
      x.mileage ≤ r.mileage) :
    get_last_service (create_record db r).1 r.service_description =
      some r.mileage :=
  get_last_service_append_le db
    ⟨db.length + 1, r.mileage, r.service_date, r.type_,
      r.service_description⟩ h

/-- Witness for C2 (amended): appending to the empty store. -/
theorem create_then_find_latest_if_max_witness :
    get_last_service (create_record [] recordA).1
        recordA.service_description = some recordA.mileage :=
  create_then_find_latest_if_max [] recordA (by decide)

/-- Counterexample to claim C3 as stated: an unscheduled-repair record
whose free-text description equals the catalog description of task 0 does
change which tasks `check_necessary_service` includes. -/
theorem repair_matching_description_influences_check :
    repairRow.type_ = "внеплановый ремонт" ∧
    (∃ e ∈ check_necessary_service [] 13500,
      e.1 = "Замена масла в двигателе") ∧
    ¬ ∃ e ∈ check_necessary_service [repairRow] 13500,
      e.1 = "Замена масла в двигателе" := by decide

/-- Claim C3 (amended): the per-task lookup filters by description alone,
never by category, so a record — in particular an unscheduled repair —
influences the evaluation only when its description exactly equals a
catalog description; appending a record whose description matches no
catalog entry leaves the result unchanged. -/
theorem unmatched_description_never_influences_check (db : List Row)
    (row : Row) (m : Int)
    (h : ∀ t ∈ PLANNED_WORK_WITH_PERIOD, t.2.1 ≠ row.description) :
    check_necessary_service (db ++ [row]) m =
      check_necessary_service db m := by
  rw [check_necessary_service_eq_pure, check_necessary_service_eq_pure]
  exact checkTasks_append_ne db row m _ h

/-- Witness for C3 (amended): a repair row with free text matching no
catalog description. -/
theorem unmatched_description_never_influences_check_witness :
    check_necessary_service ([] ++ [lampRow]) 13500 =
      check_necessary_service [] 13500 :=
  unmatched_description_never_influences_check [] lampRow 13500 (by decide)

/-- Counterexample to claim C4 as stated: a record with negative mileage
and empty description is not rejected — `create_record` stores it and
returns its new id. -/
theorem invalid_record_is_stored :
    invalidRecord.mileage < 0 ∧ invalidRecord.service_description = "" ∧
    (create_record [] invalidRecord).1 =
      [⟨1, -1, "2024-01-01", "внеплановый ремонт", ""⟩] ∧
    (create_record [] invalidRecord).2 = 1 := by decide

/-- Claim C4 (amended): `create_record` performs no validation: even a
record with negative mileage or empty description is appended to the
store and assigned the next id. -/
theorem create_record_stores_unvalidated (db : List Row) (r : LogRecord)
    (_h : r.mileage < 0 ∨ r.service_description = "") :
    (create_record db r).1 =
      db ++ [⟨db.length + 1, r.mileage, r.service_date, r.type_,
        r.service_description⟩] ∧
    (create_record db r).2 = db.length + 1 :=
  ⟨rfl, rfl⟩

/-- Witness for C4 (amended): the invalid record on the empty store. -/
theorem create_record_stores_unvalidated_witness :
    (create_record [] invalidRecord).1 =
      [⟨1, invalidRecord.mileage, invalidRecord.service_date,
        invalidRecord.type_, invalidRecord.service_description⟩] ∧
    (create_record [] invalidRecord).2 = 1 :=
  create_record_stores_unvalidated [] invalidRecord (Or.inl (by decide))

/-- Claim C5: for every catalog task, the admission used by the
evaluation equals `floor(interval * 0.1)` in exact integer arithmetic,
i.e. `interval / 10` with truncating natural division. -/
theorem admission_eq_floor_tenth :
    ∀ t ∈ PLANNED_WORK_WITH_PERIOD, admission t.2.2 = t.2.2 / 10 := by
  decide

/-- Witness for C5: task 0 with interval 15000. -/
theorem admission_eq_floor_tenth_witness :
    admission 15000 = 15000 / 10 :=
  admission_eq_floor_tenth (0, "Замена масла в двигателе", 15000)
    (by decide)

/-- Claim C6: with the store fixed, raising the current mileage can only
enlarge the set of included tasks. -/
theorem check_necessary_service_monotone (db : List Row) (m1 m2 : Int)
    (h : m1 ≤ m2) :
    ∀ e ∈ check_necessary_service db m1,
      e ∈ check_necessary_service db m2 := by
  intro e he
  obtain ⟨d, l, n⟩ := e
  rw [check_necessary_service_eq_pure, mem_checkTasks] at he ⊢
  obtain ⟨i, p, hmem, hl, hn, hle⟩ := he
  exact ⟨i, p, hmem, hl, hn, le_trans hle h⟩

/-- Witness for C6: the task due at 13500 km is still due at 20000 km. -/
theorem check_necessary_service_monotone_witness :
    ("Замена масла в двигателе", (0 : Int), (15000 : Int)) ∈
      check_necessary_service [] 20000 :=
  check_necessary_service_monotone [] 13500 20000 (by decide)
    ("Замена масла в двигателе", (0 : Int), (15000 : Int)) (by decide)

/-- Claim C7: every included entry gets the due-now status exactly when
the current mileage has reached the next-due mileage, the upcoming status
exactly when it lies in the tolerance band below it, and exactly one of
the two. -/
theorem included_entry_status_dichotomy (db : List Row) (m : Int)
    (d : String) (l n : Int)
    (h : (d, l, n) ∈ check_necessary_service db m) :
    ∃ i p, (i, d, p) ∈ PLANNED_WORK_WITH_PERIOD ∧ n = l + (p : Int) ∧
      (rowStatus m n = STATUS_DUE ↔ n ≤ m) ∧
      (rowStatus m n = STATUS_SOON ↔
        n - (admission p : Int) ≤ m ∧ m < n) ∧
      ((rowStatus m n = STATUS_DUE ∧ ¬ rowStatus m n = STATUS_SOON) ∨
        (rowStatus m n = STATUS_SOON ∧ ¬ rowStatus m n = STATUS_DUE)) := by
  rw [check_necessary_service_eq_pure, mem_checkTasks] at h
  obtain ⟨i, p, hmem, hl, hn, hle⟩ := h
  have hne : STATUS_DUE ≠ STATUS_SOON := by decide
  by_cases hc : n ≤ m
  · have hs : rowStatus m n = STATUS_DUE := by simp [rowStatus, hc]
    refine ⟨i, p, hmem, hn, ⟨fun _ => hc, fun _ => hs⟩, ?_, ?_⟩
    · rw [hs]
      exact ⟨fun he => absurd he hne,
        fun hb => absurd hc (not_le.mpr hb.2)⟩
    · exact Or.inl ⟨hs, by rw [hs]; exact hne⟩
  · have hs : rowStatus m n = STATUS_SOON := by simp [rowStatus, hc]
    refine ⟨i, p, hmem, hn, ?_, ?_, ?_⟩
    · rw [hs]
      exact ⟨fun he => absurd he.symm hne, fun hnm => absurd hnm hc⟩
    · rw [hs]
      exact ⟨fun _ => ⟨hle, not_le.mp hc⟩, fun _ => rfl⟩
    · exact Or.inr ⟨hs, by rw [hs]; exact fun he => hne he.symm⟩

/-- Witness for C7: the oil-change entry included at 13500 km. -/
theorem included_entry_status_dichotomy_witness :
    ∃ i p, (i, "Замена масла в двигателе", p) ∈ PLANNED_WORK_WITH_PERIOD ∧
      (15000 : Int) = (0 : Int) + (p : Int) ∧
      (rowStatus 13500 15000 = STATUS_DUE ↔ (15000 : Int) ≤ 13500) ∧
      (rowStatus 13500 15000 = STATUS_SOON ↔
        (15000 : Int) - (admission p : Int) ≤ 13500 ∧
          (13500 : Int) < 15000) ∧
      ((rowStatus 13500 15000 = STATUS_DUE ∧
          ¬ rowStatus 13500 15000 = STATUS_SOON) ∨
        (rowStatus 13500 15000 = STATUS_SOON ∧
          ¬ rowStatus 13500 15000 = STATUS_DUE)) :=
  included_entry_status_dichotomy [] 13500 "Замена масла в двигателе" 0
    15000 (by decide)

/-- Claim C8: the evaluation fails as a whole — it errors exactly when
some catalog query errors, a returned mapping implies every catalog query
succeeded (no partial scan), and on error the caller shows the database
failure, never the all-fine panel. -/
theorem evaluation_fails_as_whole (q : String → Except String (Option Int))
    (m : Int) :
    ((∃ e, check_necessary_serviceE q m = .error e) ↔
      ∃ t ∈ PLANNED_WORK_WITH_PERIOD, ∃ e, q t.2.1 = .error e) ∧
    (∀ l, check_necessary_serviceE q m = .ok l →
      ∀ t ∈ PLANNED_WORK_WITH_PERIOD, ∃ v, q t.2.1 = .ok v) ∧
    (∀ e, check_necessary_serviceE q m = .error e →
      display_service_status q m = .dbError e ∧
      display_service_status q m ≠ .allFine) := by
  refine ⟨checkTasksE_error_iff q m _,
    fun l h => checkTasksE_ok_full q m _ l h, ?_⟩
  intro e he
  have hd : display_service_status q m = .dbError e := by
    rw [display_service_status, he]
  refine ⟨hd, ?_⟩
  rw [hd]
  exact fun hcontra => DisplayOutcome.noConfusion hcontra

/-- Witness for C8: a store whose every query fails. -/
theorem evaluation_fails_as_whole_witness :
    display_service_status qFail 0 = .dbError "database is locked" ∧
    display_service_status qFail 0 ≠ .allFine :=
  (evaluation_fails_as_whole qFail 0).2.2 "database is locked" rfl

/-- Claim C9: with no intervening append, running the evaluation twice —
the second run on the store state left by the first — returns identical
mappings. -/
theorem check_necessary_service_idempotent (db : List Row) (m : Int) :
    (check_necessary_serviceS (check_necessary_serviceS db m).1 m).2 =
      (check_necessary_serviceS db m).2 := by
  simp [check_necessary_serviceS, checkTasksS_eq_pure]

/-- Claim C10: the evaluation is read-only — the catalog scan leaves the
stored records exactly as they were. -/
theorem check_necessary_service_read_only (db : List Row) (m : Int) :
    (check_necessary_serviceS db m).1 = db := by
  simp [check_necessary_serviceS, checkTasksS_eq_pure]

end CarLogger
